import Mathlib

/-!
Verification of the AeroPacer backend (NestJS + TypeORM fitness tracker).

This file shallowly embeds the parts of the backend relevant to the claims:
the Strava synchronization service (`strava.service.ts`), the activities
statistics service (`activities.service.ts`), the authentication service
(`auth.service.ts`), the `AuthToken` entity's virtual getters, the ML proxy
service (`ml.service.ts`), and the relational schema of the initial migration.

Conventions of the embedding:
- timestamps are integers (milliseconds since the Unix epoch, UTC);
- decimal metrics (distances, speeds, paces) are rationals;
- nullable / optional TypeScript values are `Option`;
- external I/O (HTTP calls to Strava or the ML service, bcrypt, JWT signing)
  is abstracted into explicit parameters holding the outcome of the call;
- repositories are in-memory lists of rows, threaded through functions.
-/

/-! ## Time helpers (JavaScript `Date` semantics, UTC) -/

/-- Milliseconds per day. -/
def msPerDay : Int := 86400000

/-- JavaScript `Date.prototype.getDay` (0 = Sunday .. 6 = Saturday), UTC model.
The Unix epoch day (1970-01-01) was a Thursday (= 4). -/
def jsGetDay (t : Int) : Int := (t.fdiv msPerDay + 4).emod 7

/-- JavaScript `setHours(0, 0, 0, 0)`: midnight of the day containing `t`. -/
def startOfDay (t : Int) : Int := t.fdiv msPerDay * msPerDay

/-! ## Strava provider data (`StravaActivity` interface, strava.service.ts) -/

/-- One element of `splits_metric` in a Strava activity payload. -/
structure StravaSplit where
  distance : ℚ
  elapsed_time : Int
  elevation_difference : ℚ
  moving_time : Int
  split : Int
  average_speed : ℚ
  deriving DecidableEq

/-- A fetched Strava activity (the `StravaActivity` interface).
`start_date` is modelled as parsed milliseconds since epoch. -/
structure StravaActivity where
  id : Int
  name : String
  distance : ℚ
  moving_time : Int
  elapsed_time : Int
  total_elevation_gain : ℚ
  type : String
  start_date : Int
  average_speed : ℚ
  max_speed : ℚ
  average_heartrate : Option ℚ
  max_heartrate : Option ℚ
  average_cadence : Option ℚ
  start_latlng : Option (ℚ × ℚ)
  end_latlng : Option (ℚ × ℚ)
  map : Option String
  splits_metric : Option (List StravaSplit)
  deriving DecidableEq

/-! ## Activity entity (`activity.entity.ts` / `activities` table) -/

/-- One stored split (element of the `splits` jsonb column). -/
structure ActivitySplit where
  distance : ℚ
  time : Int
  pace : ℚ
  deriving DecidableEq

/-- Stored polyline jsonb. -/
structure Polyline where
  summary : Option String
  deriving DecidableEq

/-- An `activities` row (the fields written by the backend). -/
structure Activity where
  userId : String
  stravaId : Option String
  name : String
  type : String
  distance : ℚ
  duration : Int
  averagePace : Option ℚ
  maxPace : Option ℚ
  elevationGain : Option ℚ
  averageHeartRate : Option ℚ
  maxHeartRate : Option ℚ
  averageCadence : Option ℚ
  startDate : Int
  startLatitude : Option ℚ
  startLongitude : Option ℚ
  endLatitude : Option ℚ
  endLongitude : Option ℚ
  polyline : Option Polyline
  splits : Option (List ActivitySplit)
  stravaData : Option StravaActivity
  deriving DecidableEq

/-! ## StravaService: unit conversion and activity creation -/

/-- Embeds `StravaService.speedToPace`: convert m/s to seconds per km, guarded. -/
def StravaService.speedToPace (speed : ℚ) : ℚ :=
  if speed ≤ 0 then 0 else 1000 / speed

/-- Embeds `StravaService.createActivityFromStrava`: the Activity row built from a
fetched Strava activity. JavaScript truthiness on the speed fields
(`stravaActivity.average_speed ? ... : null`) is a zero test on numbers. -/
def StravaService.createActivityFromStrava (userId : String)
    (stravaActivity : StravaActivity) : Activity :=
  { userId := userId
    stravaId := some (toString stravaActivity.id)
    name := stravaActivity.name
    type := stravaActivity.type
    distance := stravaActivity.distance
    duration := stravaActivity.moving_time
    averagePace := if stravaActivity.average_speed ≠ 0 then
        some (StravaService.speedToPace stravaActivity.average_speed) else none
    maxPace := if stravaActivity.max_speed ≠ 0 then
        some (StravaService.speedToPace stravaActivity.max_speed) else none
    elevationGain := some stravaActivity.total_elevation_gain
    averageHeartRate := stravaActivity.average_heartrate
    maxHeartRate := stravaActivity.max_heartrate
    averageCadence := stravaActivity.average_cadence
    startDate := stravaActivity.start_date
    startLatitude := stravaActivity.start_latlng.map (fun p => p.1)
    startLongitude := stravaActivity.start_latlng.map (fun p => p.2)
    endLatitude := stravaActivity.end_latlng.map (fun p => p.1)
    endLongitude := stravaActivity.end_latlng.map (fun p => p.2)
    polyline := stravaActivity.map.map (fun s => { summary := some s })
    splits := stravaActivity.splits_metric.map (fun l => l.map (fun split =>
      { distance := split.distance
        time := split.moving_time
        pace := StravaService.speedToPace split.average_speed }))
    stravaData := some stravaActivity }

/-- Embeds `activityRepository.findOne({ where: { userId, stravaId } })` over the
in-memory activities table, with `stravaId = stravaActivity.id.toString()`. -/
def StravaService.findExisting (db : List Activity) (userId : String)
    (stravaActivity : StravaActivity) : Option Activity :=
  db.find? (fun a =>
    decide (a.userId = userId ∧ a.stravaId = some (toString stravaActivity.id)))

/-- The de-duplicating store loop shared by `syncUserActivities` and
`syncUserActivitiesExtended`: for each fetched activity, look up an existing
row by (userId, stravaId); create a row and bump the counter only when there
is none and the type is exactly the string Run. -/
def StravaService.syncLoop (userId : String) :
    List StravaActivity → List Activity → Nat → List Activity × Nat
  | [], db, syncedCount => (db, syncedCount)
  | stravaActivity :: rest, db, syncedCount =>
    match StravaService.findExisting db userId stravaActivity with
    | some _ => StravaService.syncLoop userId rest db syncedCount
    | none =>
      if stravaActivity.type = "Run" then
        StravaService.syncLoop userId rest
          (db ++ [StravaService.createActivityFromStrava userId stravaActivity])
          (syncedCount + 1)
      else
        StravaService.syncLoop userId rest db syncedCount

/-- The store phase of `StravaService.syncUserActivities` (and of
`syncUserActivitiesExtended`, whose loop body is identical): given the fetched
activities and the stored table, returns the new table and the `synced` count. -/
def StravaService.syncUserActivitiesProcess (userId : String)
    (fetched : List StravaActivity) (db : List Activity) : List Activity × Nat :=
  StravaService.syncLoop userId fetched db 0

/-- The store phase of `StravaService.syncUserActivitiesExtended`; its loop
body is character-for-character the same as in `syncUserActivities`. -/
def StravaService.syncUserActivitiesExtendedProcess (userId : String)
    (fetched : List StravaActivity) (db : List Activity) : List Activity × Nat :=
  StravaService.syncLoop userId fetched db 0

/-! ## StravaService: paginated fetch loop

`pages` maps a 1-based page number to the list of activities the Strava API
returns for that page (the outcome of the `axios.get` on that page). The loop
of `syncUserActivities` fetches a page; if it is empty it stops; otherwise it
appends the page, increments the page counter, and stops once the counter
exceeds `maxPage` (5 for `syncUserActivities`, 10 for
`syncUserActivitiesExtended`). The second component counts the requests made. -/

/-- The `while (hasMorePages)` fetch loop, entered at page number `page` with
accumulated activities `acc`. Returns all accumulated activities and the
number of page requests performed. -/
def StravaService.fetchAllPages (pages : Nat → List StravaActivity)
    (maxPage : Nat) (page : Nat) (acc : List StravaActivity) :
    List StravaActivity × Nat :=
  if (pages page).isEmpty then (acc, 1)
  else if h : page + 1 > maxPage then (acc ++ pages page, 1)
  else
    ((StravaService.fetchAllPages pages maxPage (page + 1) (acc ++ pages page)).1,
      (StravaService.fetchAllPages pages maxPage (page + 1) (acc ++ pages page)).2 + 1)
termination_by maxPage + 1 - page
decreasing_by omega

/-- The fetch phase of `StravaService.syncUserActivities` (perPage = 200,
page limit 5). -/
def StravaService.syncFetch (pages : Nat → List StravaActivity) :
    List StravaActivity × Nat :=
  StravaService.fetchAllPages pages 5 1 []

/-- The fetch phase of `StravaService.syncUserActivitiesExtended`
(perPage = 200, page limit 10). -/
def StravaService.syncFetchExtended (pages : Nat → List StravaActivity) :
    List StravaActivity × Nat :=
  StravaService.fetchAllPages pages 10 1 []

/-! ## ActivitiesService: statistics aggregation (`getUserStats`) -/

/-- The `thisWeek` / `thisMonth` rollup triple. -/
structure PeriodStats where
  activities : Nat
  distance : ℚ
  duration : Int
  deriving DecidableEq

/-- The `ActivityStats` result shape of `ActivitiesService.getUserStats`. -/
structure ActivityStats where
  totalActivities : Nat
  totalDistance : ℚ
  totalDuration : Int
  averagePace : ℚ
  averageDistance : ℚ
  averageHeartRate : ℚ
  thisWeek : PeriodStats
  thisMonth : PeriodStats
  deriving DecidableEq

/-- JavaScript `a.averagePace > 0` where `averagePace` may be null
(`null > 0` is false). -/
def paceIsPositive (a : Activity) : Bool :=
  match a.averagePace with
  | some p => decide (0 < p)
  | none => false

/-- JavaScript `a.averageHeartRate > 0` where the field may be null. -/
def heartRateIsPositive (a : Activity) : Bool :=
  match a.averageHeartRate with
  | some hr => decide (0 < hr)
  | none => false

/-- Embeds `ActivitiesService.getUserStats` over the user's activity list, at current
time `now` (ms). The week window is computed exactly as the source does:
`currentWeekStart.setDate(now.getDate() - now.getDay() + 1)` then midnight,
i.e. `startOfDay now + (1 - getDay now)` days; the week end is six days later
at 23:59:59.999. `oneMonthAgo` is `now` minus 30 days. -/
def ActivitiesService.getUserStats (now : Int) (allActivities : List Activity) :
    ActivityStats :=
  if allActivities.isEmpty then
    { totalActivities := 0, totalDistance := 0, totalDuration := 0
      averagePace := 0, averageDistance := 0, averageHeartRate := 0
      thisWeek := { activities := 0, distance := 0, duration := 0 }
      thisMonth := { activities := 0, distance := 0, duration := 0 } }
  else
    let oneMonthAgo : Int := now - 30 * 24 * 60 * 60 * 1000
    let currentWeekStart : Int := startOfDay now + (1 - jsGetDay now) * msPerDay
    let currentWeekEnd : Int := currentWeekStart + 6 * msPerDay + (msPerDay - 1)
    let totalDistance : ℚ := (allActivities.map (fun a => a.distance)).sum
    let totalDuration : Int := (allActivities.map (fun a => a.duration)).sum
    let validPaces : List ℚ :=
      (allActivities.filter paceIsPositive).map (fun a => a.averagePace.getD 0)
    let averagePace : ℚ :=
      if validPaces.length > 0 then validPaces.sum / validPaces.length else 0
    let validHeartRates : List ℚ :=
      (allActivities.filter heartRateIsPositive).map
        (fun a => a.averageHeartRate.getD 0)
    let averageHeartRate : ℚ :=
      if validHeartRates.length > 0 then
        validHeartRates.sum / validHeartRates.length else 0
    let thisWeekActivities : List Activity := allActivities.filter
      (fun a => decide (currentWeekStart ≤ a.startDate ∧ a.startDate ≤ currentWeekEnd))
    let thisMonthActivities : List Activity := allActivities.filter
      (fun a => decide (oneMonthAgo ≤ a.startDate))
    { totalActivities := allActivities.length
      totalDistance := totalDistance / 1000
      totalDuration := totalDuration
      averagePace := averagePace
      averageDistance := totalDistance / allActivities.length / 1000
      averageHeartRate := averageHeartRate
      thisWeek :=
        { activities := thisWeekActivities.length
          distance := ((thisWeekActivities.map (fun a => a.distance)).sum) / 1000
          duration := (thisWeekActivities.map (fun a => a.duration)).sum }
      thisMonth :=
        { activities := thisMonthActivities.length
          distance := ((thisMonthActivities.map (fun a => a.distance)).sum) / 1000
          duration := (thisMonthActivities.map (fun a => a.duration)).sum } }

/-! ## AuthToken entity (`auth-token.entity.ts`): virtual getters -/

/-- An `auth_tokens` row. `expiresAt` is nullable. -/
structure AuthToken where
  userId : String
  provider : String
  accessToken : String
  refreshToken : Option String
  tokenType : Option String
  scope : Option String
  expiresAt : Option Int
  isActive : Bool
  deriving DecidableEq

/-- Virtual getter `isExpired`, evaluated at time `now` (the getter reads
`new Date()`): false when `expiresAt` is null, else `now > expiresAt`. -/
def AuthToken.isExpired (now : Int) (t : AuthToken) : Bool :=
  match t.expiresAt with
  | none => false
  | some e => decide (now > e)

/-- Virtual getter `isValid`: `isActive && !isExpired`. -/
def AuthToken.isValid (now : Int) (t : AuthToken) : Bool :=
  t.isActive && !(AuthToken.isExpired now t)

/-! ## User entity (`user.entity.ts` / `users` table) and AuthService -/

/-- Nested goals blob inside user preferences. -/
structure UserGoals where
  weeklyDistance : Option ℚ
  weeklyRuns : Option ℚ
  targetRaceTime : Option String
  deriving DecidableEq

/-- The `preferences` jsonb blob. -/
structure UserPreferences where
  units : Option String
  timezone : Option String
  goals : Option UserGoals
  deriving DecidableEq

/-- The `profile` jsonb blob. -/
structure UserProfile where
  age : Option ℚ
  weight : Option ℚ
  height : Option ℚ
  runningExperience : Option String
  favoriteDistance : Option String
  deriving DecidableEq

/-- A `users` row. -/
structure User where
  id : String
  email : String
  password : String
  firstName : String
  lastName : String
  stravaId : Option String
  preferences : Option UserPreferences
  profile : Option UserProfile
  isActive : Bool
  lastLoginAt : Option Int
  deriving DecidableEq

/-- Embeds `AuthService.sanitizeUser`: the spread `{ password, ...sanitizedUser }`
keeps every field of the user except `password`; the result type has no
password field at all. -/
structure SanitizedUser where
  id : String
  email : String
  firstName : String
  lastName : String
  stravaId : Option String
  preferences : Option UserPreferences
  profile : Option UserProfile
  isActive : Bool
  lastLoginAt : Option Int
  deriving DecidableEq

def AuthService.sanitizeUser (user : User) : SanitizedUser :=
  { id := user.id
    email := user.email
    firstName := user.firstName
    lastName := user.lastName
    stravaId := user.stravaId
    preferences := user.preferences
    profile := user.profile
    isActive := user.isActive
    lastLoginAt := user.lastLoginAt }

/-- A signed JWT as produced by `jwtService.sign(payload, { expiresIn })`:
the payload (`sub`, optional `email`, `type`) plus the expiry option. -/
structure SignedJwt where
  sub : String
  email : Option String
  tokenUse : String
  expiresIn : String
  deriving DecidableEq

/-- The record returned by `AuthService.generateTokens`. -/
structure TokenPair where
  accessToken : SignedJwt
  refreshToken : SignedJwt
  expiresIn : Int
  deriving DecidableEq

/-- Embeds `AuthService.generateTokens`: access token signed with `expiresIn: 15m`
(and `expiresIn` reported as 15 minutes in milliseconds), refresh token with
`expiresIn: 7d`. -/
def AuthService.generateTokens (user : User) : TokenPair :=
  { accessToken :=
      { sub := user.id, email := some user.email, tokenUse := "access"
        expiresIn := "15m" }
    refreshToken :=
      { sub := user.id, email := none, tokenUse := "refresh", expiresIn := "7d" }
    expiresIn := 15 * 60 * 1000 }

/-- The `AuthResponseDto` shape (with the sanitized user). -/
structure AuthResponse where
  accessToken : SignedJwt
  refreshToken : SignedJwt
  expiresIn : Int
  user : SanitizedUser
  deriving DecidableEq

/-- The exceptions `AuthService` throws. -/
inductive AuthError where
  | conflictException : AuthError
  | unauthorizedException : AuthError
  deriving DecidableEq

structure RegisterDto where
  email : String
  password : String
  firstName : String
  lastName : String
  units : Option String
  timezone : Option String
  deriving DecidableEq

structure LoginDto where
  email : String
  password : String
  deriving DecidableEq

/-- JavaScript `x || dflt` on an optional string (falsy when absent or empty). -/
def jsOrDefault (x : Option String) (dflt : String) : String :=
  match x with
  | some s => if s = "" then dflt else s
  | none => dflt

/-- Embeds `AuthService.register`. `bcryptHash pw rounds` abstracts
`bcrypt.hash(pw, rounds)`; `newId` is the uuid the database generates for the
inserted row; `now` is the `new Date()` written to `lastLoginAt`. Returns the
response and the updated users table, or the thrown exception. -/
def AuthService.register (bcryptHash : String → Nat → String) (newId : String)
    (now : Int) (db : List User) (registerDto : RegisterDto) :
    Except AuthError (AuthResponse × List User) :=
  match db.find? (fun u => decide (u.email = registerDto.email)) with
  | some _ => .error .conflictException
  | none =>
    let saltRounds := 12
    let hashedPassword := bcryptHash registerDto.password saltRounds
    let user : User :=
      { id := newId
        email := registerDto.email
        password := hashedPassword
        firstName := registerDto.firstName
        lastName := registerDto.lastName
        stravaId := none
        preferences := some
          { units := some (jsOrDefault registerDto.units "metric")
            timezone := some (jsOrDefault registerDto.timezone "UTC")
            goals := none }
        profile := none
        isActive := true
        lastLoginAt := none }
    let savedUser := user
    let tokens := AuthService.generateTokens savedUser
    let dbSaved := db ++ [savedUser]
    let dbUpdated := dbSaved.map (fun u =>
      if u.id = savedUser.id then { u with lastLoginAt := some now } else u)
    .ok ({ accessToken := tokens.accessToken
           refreshToken := tokens.refreshToken
           expiresIn := tokens.expiresIn
           user := AuthService.sanitizeUser savedUser }, dbUpdated)

/-- Embeds `AuthService.login`. `bcryptCompare pw hash` abstracts
`bcrypt.compare(pw, hash)`. -/
def AuthService.login (bcryptCompare : String → String → Bool) (now : Int)
    (db : List User) (loginDto : LoginDto) :
    Except AuthError (AuthResponse × List User) :=
  match db.find? (fun u => decide (u.email = loginDto.email ∧ u.isActive = true)) with
  | none => .error .unauthorizedException
  | some user =>
    if bcryptCompare loginDto.password user.password then
      let tokens := AuthService.generateTokens user
      let dbUpdated := db.map (fun u =>
        if u.id = user.id then { u with lastLoginAt := some now } else u)
      .ok ({ accessToken := tokens.accessToken
             refreshToken := tokens.refreshToken
             expiresIn := tokens.expiresIn
             user := AuthService.sanitizeUser user }, dbUpdated)
    else .error .unauthorizedException

/-- Embeds `AuthService.validateUser`: look up an active user by id; throws
`UnauthorizedException` when none. -/
def AuthService.validateUser (db : List User) (userId : String) :
    Except AuthError User :=
  match db.find? (fun u => decide (u.id = userId ∧ u.isActive = true)) with
  | none => .error .unauthorizedException
  | some user => .ok user

/-- Embeds `AuthService.refreshToken`. `verify` abstracts `jwtService.verify`:
`none` models a verification failure (throw); `some payload` the decoded
token. Any exception inside the `try` is caught and rethrown as
`UnauthorizedException`. -/
def AuthService.refreshToken (verify : String → Option SignedJwt)
    (db : List User) (token : String) : Except AuthError AuthResponse :=
  match verify token with
  | none => .error .unauthorizedException
  | some decoded =>
    match AuthService.validateUser db decoded.sub with
    | .error _ => .error .unauthorizedException
    | .ok user =>
      let tokens := AuthService.generateTokens user
      .ok { accessToken := tokens.accessToken
            refreshToken := tokens.refreshToken
            expiresIn := tokens.expiresIn
            user := AuthService.sanitizeUser user }

/-! ## MlService (`ml.service.ts`)

Each endpoint wraps its body in try/catch. The outcome of the HTTP call to
the external ML service (`callMLService`) is abstracted into the parameter
`mlResult : Except HttpException α`: `.ok` is a successful response body,
`.error` any exception thrown while calling the service. -/

/-- A NestJS `HttpException` (status + message). -/
structure HttpException where
  status : Nat
  message : String
  deriving DecidableEq

/-- The `CoachingRecommendation` shape. -/
structure CoachingRecommendation where
  type : String
  title : String
  message : String
  priority : String
  confidence : ℚ
  category : String
  deriving DecidableEq

/-- The `FatigueAnalysis` shape. -/
structure FatigueAnalysis where
  fatigue_score : ℚ
  recovery_recommendation : String
  days_to_full_recovery : ℚ
  training_readiness : String
  contributing_factors : List String
  deriving DecidableEq

/-- The `TrainingLoad` shape (`ratio` is named `loadRatio` here). -/
structure TrainingLoad where
  acute_load : ℚ
  chronic_load : ℚ
  loadRatio : ℚ
  risk_level : String
  recommendation : String
  deriving DecidableEq

/-- Embeds `MlService.getFallbackRecommendations`. -/
def MlService.getFallbackRecommendations : List CoachingRecommendation :=
  [ { type := "general"
      title := "Keep Training Consistently"
      message := "Maintain 3-4 runs per week to build your aerobic base."
      priority := "medium"
      confidence := 1 / 2
      category := "training" },
    { type := "general"
      title := "Listen to Your Body"
      message := "Include rest days and easy-paced runs for proper recovery."
      priority := "medium"
      confidence := 1 / 2
      category := "recovery" } ]

/-- The onboarding recommendation returned when the user has no activities. -/
def MlService.gettingStartedRecommendation : CoachingRecommendation :=
  { type := "getting_started"
    title := "Welcome to AeroPacer!"
    message := "Connect your Strava account or log some activities to get personalized coaching insights."
    priority := "high"
    confidence := 1
    category := "onboarding" }

/-- Embeds `MlService.getFallbackFatigueAnalysis`. -/
def MlService.getFallbackFatigueAnalysis : FatigueAnalysis :=
  { fatigue_score := 50
    recovery_recommendation := "Unable to analyze fatigue - consider your recent training load"
    days_to_full_recovery := 1
    training_readiness := "medium"
    contributing_factors := ["Insufficient data for analysis"] }

/-- Embeds `MlService.getFallbackTrainingLoad`. -/
def MlService.getFallbackTrainingLoad : TrainingLoad :=
  { acute_load := 0
    chronic_load := 0
    loadRatio := 0
    risk_level := "low"
    recommendation := "Unable to calculate training load - need more training data" }

/-- Embeds `MlService.getCoachingRecommendations`: empty activity list returns the
onboarding card inside the `try`; any error is caught and the static fallback
list is returned. -/
def MlService.getCoachingRecommendations (activities : List Activity)
    (mlResult : Except HttpException (List CoachingRecommendation)) :
    Except HttpException (List CoachingRecommendation) :=
  if activities.length = 0 then .ok [MlService.gettingStartedRecommendation]
  else
    match mlResult with
    | .ok r => .ok r
    | .error _ => .ok MlService.getFallbackRecommendations

/-- Embeds `MlService.predictPerformance`: the in-`try` guard (< 3 activities) throws
and is caught by the same `catch`, which rethrows a 500 `HttpException`; an
ML-call error is likewise caught and rethrown as the same 500. -/
def MlService.predictPerformance {α : Type} (activities : List Activity)
    (mlResult : Except HttpException α) : Except HttpException α :=
  if activities.length < 3 then
    .error { status := 500, message := "Failed to predict performance" }
  else
    match mlResult with
    | .ok r => .ok r
    | .error _ =>
      .error { status := 500, message := "Failed to predict performance" }

/-- Embeds `MlService.analyzeFatigue`: any error is caught and the static fallback
analysis is returned. -/
def MlService.analyzeFatigue (_activities : List Activity)
    (mlResult : Except HttpException FatigueAnalysis) :
    Except HttpException FatigueAnalysis :=
  match mlResult with
  | .ok r => .ok r
  | .error _ => .ok MlService.getFallbackFatigueAnalysis

/-- Embeds `MlService.getTrainingLoad`: any error is caught and the static fallback
training load is returned. -/
def MlService.getTrainingLoad (_activities : List Activity)
    (mlResult : Except HttpException TrainingLoad) :
    Except HttpException TrainingLoad :=
  match mlResult with
  | .ok r => .ok r
  | .error _ => .ok MlService.getFallbackTrainingLoad

/-- Embeds `MlService.getRaceStrategy`: guard (< 3 activities) and ML errors are both
caught and rethrown as a 500 `HttpException`. -/
def MlService.getRaceStrategy {α : Type} (activities : List Activity)
    (mlResult : Except HttpException α) : Except HttpException α :=
  if activities.length < 3 then
    .error { status := 500, message := "Failed to generate race strategy" }
  else
    match mlResult with
    | .ok r => .ok r
    | .error _ =>
      .error { status := 500, message := "Failed to generate race strategy" }

/-- Embeds `MlService.generateTrainingPlan`: errors are caught and rethrown as a 500
`HttpException`. -/
def MlService.generateTrainingPlan {α : Type} (_activities : List Activity)
    (mlResult : Except HttpException α) : Except HttpException α :=
  match mlResult with
  | .ok r => .ok r
  | .error _ =>
    .error { status := 500, message := "Failed to generate training plan" }

/-- Embeds `MlService.suggestNextWorkout`: errors are caught and rethrown as a 500
`HttpException`. -/
def MlService.suggestNextWorkout {α : Type} (_activities : List Activity)
    (mlResult : Except HttpException α) : Except HttpException α :=
  match mlResult with
  | .ok r => .ok r
  | .error _ =>
    .error { status := 500, message := "Failed to suggest next workout" }

/-! ## Relational schema of the initial migration (`InitialMigration...up`)

The four tables, the `UQ_users_email` unique constraint, and the foreign-key
delete actions declared by the DDL:
- `activities.userId → users.id ON DELETE CASCADE`
- `analytics_events.userId → users.id ON DELETE SET NULL`
- `auth_tokens.userId → users.id ON DELETE CASCADE`
The functions below embed the relational engine's native enforcement of those
declared constraints. -/

/-- An `analytics_events` row (`userId` is nullable). -/
structure AnalyticsEvent where
  userId : Option String
  event : String
  sessionId : Option String
  page : Option String
  deriving DecidableEq

/-- An `auth_tokens` row as referenced by the FK (reuses `AuthToken`). -/
structure DatabaseState where
  users : List User
  activities : List Activity
  analyticsEvents : List AnalyticsEvent
  authTokens : List AuthToken
  deriving DecidableEq

/-- The possible constraint violations on insert. -/
inductive ConstraintViolation where
  | uniqueEmail : ConstraintViolation
  deriving DecidableEq

/-- Inserting a user row under the `UQ_users_email` unique constraint. -/
def insertUser (db : DatabaseState) (u : User) :
    Except ConstraintViolation DatabaseState :=
  if db.users.any (fun v => decide (v.email = u.email)) then
    .error .uniqueEmail
  else
    .ok { db with users := db.users ++ [u] }

/-- Deleting a user row: the engine applies the declared FK actions —
CASCADE on `activities` and `auth_tokens`, SET NULL on `analytics_events`. -/
def deleteUser (db : DatabaseState) (userId : String) : DatabaseState :=
  { users := db.users.filter (fun u => decide (u.id ≠ userId))
    activities := db.activities.filter (fun a => decide (a.userId ≠ userId))
    authTokens := db.authTokens.filter (fun t => decide (t.userId ≠ userId))
    analyticsEvents := db.analyticsEvents.map (fun e =>
      if e.userId = some userId then { e with userId := none } else e) }

/-- Email uniqueness invariant on the users table. -/
def emailsUnique (users : List User) : Prop :=
  (users.map (fun u => u.email)).Nodup

/-! ## Concrete sample data used by counterexamples and witnesses -/

/-- A Strava activity whose `average_speed` is 0 (e.g. a treadmill upload
with no GPS speed). -/
def zeroSpeedStravaActivity : StravaActivity :=
  { id := 987654321
    name := "Treadmill run"
    distance := 1200
    moving_time := 600
    elapsed_time := 650
    total_elevation_gain := 0
    type := "Run"
    start_date := 1754000000000
    average_speed := 0
    max_speed := 3
    average_heartrate := none
    max_heartrate := none
    average_cadence := none
    start_latlng := none
    end_latlng := none
    map := none
    splits_metric := none }

/-- A plain stored activity row. -/
def sampleActivity : Activity :=
  { userId := "u1"
    stravaId := none
    name := "Morning run"
    type := "Run"
    distance := 5000
    duration := 1500
    averagePace := some 300
    maxPace := none
    elevationGain := none
    averageHeartRate := some 150
    maxHeartRate := none
    averageCadence := none
    startDate := 1754000000000
    startLatitude := none
    startLongitude := none
    endLatitude := none
    endLongitude := none
    polyline := none
    splits := none
    stravaData := none }

/-- A users row. -/
def sampleUser : User :=
  { id := "u1"
    email := "runner@example.com"
    password := "bcrypt-digest"
    firstName := "Ada"
    lastName := "Lovelace"
    stravaId := none
    preferences := none
    profile := none
    isActive := true
    lastLoginAt := none }

/-- A database holding one user and one analytics event referencing it. -/
def sampleAnalyticsDb : DatabaseState :=
  { users := [sampleUser]
    activities := []
    analyticsEvents :=
      [{ userId := some "u1", event := "page_view", sessionId := none
         page := some "/dashboard" }]
    authTokens := [] }

/-! ## C6: AuthToken validity -/

/-- C6: for every AuthToken, `isValid` is true iff `isActive` is true and the
token is not expired; a token with no `expiresAt` is never expired; a token
whose `expiresAt` lies strictly in the past is expired. -/
theorem authToken_validity_correct (now : Int) (t : AuthToken) :
    (AuthToken.isValid now t = true ↔
      (t.isActive = true ∧ AuthToken.isExpired now t = false)) ∧
    (t.expiresAt = none → AuthToken.isExpired now t = false) ∧
    (∀ e : Int, t.expiresAt = some e → e < now →
      AuthToken.isExpired now t = true) := by
  refine ⟨?_, ?_, ?_⟩
  · simp [AuthToken.isValid]
  · intro h
    simp [AuthToken.isExpired, h]
  · intro e he hlt
    simp [AuthToken.isExpired, he]
    omega

/-- Witness for C6 at a concrete token: active, expired 1000 ms before `now`. -/
theorem authToken_validity_correct_witness :
    AuthToken.isExpired 2000
      { userId := "u1", provider := "strava", accessToken := "tok"
        refreshToken := none, tokenType := none, scope := none
        expiresAt := some 1000, isActive := true } = true :=
  (authToken_validity_correct 2000
    { userId := "u1", provider := "strava", accessToken := "tok"
      refreshToken := none, tokenType := none, scope := none
      expiresAt := some 1000, isActive := true }).2.2 1000 rfl (by decide)

/-! ## C8: unit conversion (corrected: zero speed stores null, not
`speedToPace 0`) -/

/-- C8 counterexample: for a fetched activity with `average_speed = 0`, the
stored `averagePace` is null, not the value `speedToPace` produces — so not
every pace field is derived by `speedToPace`. -/
theorem speedToPace_zero_counterexample :
    (StravaService.createActivityFromStrava "user-1"
        zeroSpeedStravaActivity).averagePace ≠
      some (StravaService.speedToPace zeroSpeedStravaActivity.average_speed) ∧
    (StravaService.createActivityFromStrava "user-1"
        zeroSpeedStravaActivity).averagePace = none ∧
    StravaService.speedToPace zeroSpeedStravaActivity.average_speed = 0 := by
  refine ⟨by decide, by decide, by decide⟩

/-- C8 amended: the stored activity keeps the provider's distance in meters
and `moving_time` as duration in seconds; `speedToPace` maps `s > 0` to
`1000 / s` seconds per km and `s ≤ 0` to 0; split paces are always
`speedToPace` of the split speed; `averagePace` / `maxPace` equal
`speedToPace` of the corresponding speed when that speed is nonzero, and are
null when the speed is zero (JavaScript truthiness guard). -/
theorem strava_unit_conversion_amended (u : String) (sa : StravaActivity) :
    (StravaService.createActivityFromStrava u sa).distance = sa.distance ∧
    (StravaService.createActivityFromStrava u sa).duration = sa.moving_time ∧
    (∀ s : ℚ, 0 < s → StravaService.speedToPace s = 1000 / s) ∧
    (∀ s : ℚ, s ≤ 0 → StravaService.speedToPace s = 0) ∧
    (sa.average_speed ≠ 0 →
      (StravaService.createActivityFromStrava u sa).averagePace =
        some (StravaService.speedToPace sa.average_speed)) ∧
    (sa.average_speed = 0 →
      (StravaService.createActivityFromStrava u sa).averagePace = none) ∧
    (sa.max_speed ≠ 0 →
      (StravaService.createActivityFromStrava u sa).maxPace =
        some (StravaService.speedToPace sa.max_speed)) ∧
    (sa.max_speed = 0 →
      (StravaService.createActivityFromStrava u sa).maxPace = none) ∧
    (∀ l : List StravaSplit, sa.splits_metric = some l →
      (StravaService.createActivityFromStrava u sa).splits =
        some (l.map (fun split =>
          { distance := split.distance
            time := split.moving_time
            pace := StravaService.speedToPace split.average_speed }))) := by
  refine ⟨rfl, rfl, ?_, ?_, ?_, ?_, ?_, ?_, ?_⟩
  · intro s hs
    simp [StravaService.speedToPace, not_le.mpr hs]
  · intro s hs
    simp [StravaService.speedToPace, hs]
  · intro h
    simp [StravaService.createActivityFromStrava, h]
  · intro h
    simp [StravaService.createActivityFromStrava, h]
  · intro h
    simp [StravaService.createActivityFromStrava, h]
  · intro h
    simp [StravaService.createActivityFromStrava, h]
  · intro l hl
    simp [StravaService.createActivityFromStrava, hl]

/-- Witness for C8 amended at a concrete fetched activity (nonzero speed). -/
theorem strava_unit_conversion_amended_witness :
    (StravaService.createActivityFromStrava "user-1"
        { zeroSpeedStravaActivity with average_speed := 4 }).averagePace =
      some 250 := by
  have h := (strava_unit_conversion_amended "user-1"
    { zeroSpeedStravaActivity with average_speed := 4 }).2.2.2.2.1 (by decide)
  rw [h]
  show some (StravaService.speedToPace 4) = some 250
  norm_num [StravaService.speedToPace]

/-! ## C3: ML endpoint error handling (corrected: only three of the seven
endpoints fall back; the other four rethrow an `HttpException`) -/

/-- C3 counterexample: with three activities on record and a failing ML call,
`predictPerformance` propagates a 500 `HttpException` to the caller instead of
returning a static fallback payload. -/
theorem ml_fallback_counterexample :
    MlService.predictPerformance
        [sampleActivity, sampleActivity, sampleActivity]
        (Except.error { status := 503, message := "ML service unavailable" } :
          Except HttpException Unit) =
      .error { status := 500, message := "Failed to predict performance" } := by
  rfl

/-- C3 amended: when the ML call fails, `getCoachingRecommendations` (with a
nonempty activity list), `analyzeFatigue`, and `getTrainingLoad` return their
static fallback payloads, while `predictPerformance`, `getRaceStrategy`,
`generateTrainingPlan`, and `suggestNextWorkout` throw an `HttpException`. -/
theorem ml_error_handling_amended {α : Type} (activities : List Activity)
    (e : HttpException) :
    (activities ≠ [] →
      MlService.getCoachingRecommendations activities (.error e) =
        .ok MlService.getFallbackRecommendations) ∧
    MlService.analyzeFatigue activities (.error e) =
      .ok MlService.getFallbackFatigueAnalysis ∧
    MlService.getTrainingLoad activities (.error e) =
      .ok MlService.getFallbackTrainingLoad ∧
    MlService.predictPerformance activities
      (Except.error e : Except HttpException α) =
      .error { status := 500, message := "Failed to predict performance" } ∧
    MlService.getRaceStrategy activities
      (Except.error e : Except HttpException α) =
      .error { status := 500, message := "Failed to generate race strategy" } ∧
    MlService.generateTrainingPlan activities
      (Except.error e : Except HttpException α) =
      .error { status := 500, message := "Failed to generate training plan" } ∧
    MlService.suggestNextWorkout activities
      (Except.error e : Except HttpException α) =
      .error { status := 500, message := "Failed to suggest next workout" } := by
  refine ⟨?_, rfl, rfl, ?_, ?_, rfl, rfl⟩
  · intro h
    have hlen : activities.length ≠ 0 := by
      simpa using h
    simp [MlService.getCoachingRecommendations, hlen]
  · by_cases h : activities.length < 3 <;>
      simp [MlService.predictPerformance, h]
  · by_cases h : activities.length < 3 <;>
      simp [MlService.getRaceStrategy, h]

/-- Witness for C3 amended at a concrete activity list and error. -/
theorem ml_error_handling_amended_witness :
    MlService.getCoachingRecommendations [sampleActivity]
        (.error { status := 503, message := "ML service unavailable" }) =
      .ok MlService.getFallbackRecommendations :=
  (@ml_error_handling_amended Unit [sampleActivity]
    { status := 503, message := "ML service unavailable" }).1 (by decide)

/-! ## C4: delete semantics of the schema (corrected: `analytics_events` is
ON DELETE SET NULL, not CASCADE) -/

/-- C4 counterexample: deleting a user does not remove the analytics_events
row that referenced it — the row is retained with its `userId` set to null,
because the migration declares `ON DELETE SET NULL` for that foreign key. -/
theorem cascade_delete_counterexample :
    (deleteUser sampleAnalyticsDb "u1").users = [] ∧
    (deleteUser sampleAnalyticsDb "u1").analyticsEvents ≠ [] ∧
    (deleteUser sampleAnalyticsDb "u1").analyticsEvents =
      [{ userId := none, event := "page_view", sessionId := none
         page := some "/dashboard" }] := by
  refine ⟨by decide, by decide, by decide⟩

/-- C4 amended: deleting a user cascade-deletes exactly its `activities` and
`auth_tokens` rows; its `analytics_events` rows are all retained with their
`userId` set to null (so none still references the user); inserting a user
with a duplicate email violates `UQ_users_email`, and insertion and deletion
preserve email uniqueness. -/
theorem user_delete_schema_amended (db : DatabaseState) (userId : String) :
    (∀ u, u ∈ (deleteUser db userId).users → u.id ≠ userId) ∧
    (∀ a, a ∈ (deleteUser db userId).activities → a.userId ≠ userId) ∧
    (∀ a, a ∈ db.activities → a.userId ≠ userId →
      a ∈ (deleteUser db userId).activities) ∧
    (∀ t, t ∈ (deleteUser db userId).authTokens → t.userId ≠ userId) ∧
    (∀ t, t ∈ db.authTokens → t.userId ≠ userId →
      t ∈ (deleteUser db userId).authTokens) ∧
    ((deleteUser db userId).analyticsEvents.length =
      db.analyticsEvents.length) ∧
    (∀ e, e ∈ (deleteUser db userId).analyticsEvents →
      e.userId ≠ some userId) ∧
    (∀ u : User, (∃ w ∈ db.users, w.email = u.email) →
      insertUser db u = .error .uniqueEmail) ∧
    (∀ (u : User) (db2 : DatabaseState), emailsUnique db.users →
      insertUser db u = .ok db2 → emailsUnique db2.users) ∧
    (emailsUnique db.users → emailsUnique (deleteUser db userId).users) := by
  refine ⟨?_, ?_, ?_, ?_, ?_, ?_, ?_, ?_, ?_, ?_⟩
  · intro u hu
    simp [deleteUser, List.mem_filter] at hu
    exact hu.2
  · intro a ha
    simp [deleteUser, List.mem_filter] at ha
    exact ha.2
  · intro a ha hne
    simp [deleteUser, List.mem_filter]
    exact ⟨ha, hne⟩
  · intro t ht
    simp [deleteUser, List.mem_filter] at ht
    exact ht.2
  · intro t ht hne
    simp [deleteUser, List.mem_filter]
    exact ⟨ht, hne⟩
  · simp [deleteUser]
  · intro e he
    simp [deleteUser] at he
    obtain ⟨e0, _, he0⟩ := he
    by_cases h : e0.userId = some userId
    · rw [if_pos h] at he0
      rw [← he0]
      simp
    · rw [if_neg h] at he0
      rw [← he0]
      exact h
  · intro u hex
    obtain ⟨w, hw, hwe⟩ := hex
    have hany : db.users.any (fun v => decide (v.email = u.email)) = true := by
      simp [List.any_eq_true]
      exact ⟨w, hw, hwe⟩
    simp [insertUser, hany]
  · intro u db2 huniq hok
    by_cases hany : db.users.any (fun v => decide (v.email = u.email)) = true
    · simp [insertUser, hany] at hok
    · simp [insertUser, hany] at hok
      have hnotin : u.email ∉ db.users.map (fun v => v.email) := by
        intro hmem
        apply hany
        simp [List.any_eq_true]
        simp [List.mem_map] at hmem
        obtain ⟨v, hv, hve⟩ := hmem
        exact ⟨v, hv, hve⟩
      rw [← hok]
      unfold emailsUnique
      simp only [List.map_append, List.map_cons, List.map_nil]
      rw [List.nodup_append]
      refine ⟨huniq, List.nodup_singleton _, ?_⟩
      intro x hx hx1
      simp at hx1
      rw [hx1] at hx
      exact hnotin hx
  · intro huniq
    unfold emailsUnique at huniq ⊢
    have hsub : ((db.users.filter (fun u => decide (u.id ≠ userId))).map
        (fun u => u.email)).Sublist (db.users.map (fun u => u.email)) :=
      (List.filter_sublist db.users).map (fun u => u.email)
    exact huniq.sublist hsub

/-- Witness for C4 amended at a concrete database. -/
theorem user_delete_schema_amended_witness :
    insertUser sampleAnalyticsDb sampleUser = .error .uniqueEmail :=
  (user_delete_schema_amended sampleAnalyticsDb "u1").2.2.2.2.2.2.2.1
    sampleUser ⟨sampleUser, by decide, rfl⟩

/-! ## C2: getUserStats week window (code bug on Sundays)

The source comments say "Calculate current week (Monday to Sunday)" and mark
`now.getDate() - now.getDay() + 1` as Monday. JavaScript `getDay()` returns 0
for Sunday, so on a Sunday that expression is tomorrow — the Monday of the
NEXT week — and the just-ending Monday-to-Sunday week (including any run
earlier that same Sunday) falls outside the computed window. -/

/-- Modelled from the claim's words: the Monday starting the Monday-to-Sunday
week that contains `t` (midnight, `(getDay + 6) mod 7` days back). -/
def mondayOfCurrentWeek (t : Int) : Int :=
  startOfDay t - ((jsGetDay t + 6).emod 7) * msPerDay

/-- Noon UTC on Sunday 2026-10-11 (epoch day 20737). -/
def sundayNoonMs : Int := 20737 * 86400000 + 43200000

/-- A run earlier that same Sunday morning (08:00 UTC). -/
def sundayMorningRun : Activity :=
  { sampleActivity with startDate := 20737 * 86400000 + 28800000 }

/-- C2: at a Sunday evaluation time, the run performed that same Sunday lies
inside the current Monday-to-Sunday week, yet `getUserStats` counts 0
activities for `thisWeek`, because the code's week window starts at the NEXT
Monday. The code contradicts its own "current week (Monday to Sunday)"
comment on Sundays. -/
theorem getUserStats_sunday_week_divergence :
    jsGetDay sundayNoonMs = 0 ∧
    mondayOfCurrentWeek sundayNoonMs ≤ sundayMorningRun.startDate ∧
    sundayMorningRun.startDate < mondayOfCurrentWeek sundayNoonMs + 7 * msPerDay ∧
    (ActivitiesService.getUserStats sundayNoonMs
        [sundayMorningRun]).totalActivities = 1 ∧
    (ActivitiesService.getUserStats sundayNoonMs
        [sundayMorningRun]).thisWeek.activities = 0 := by
  refine ⟨by decide, by decide, by decide, by decide, by decide⟩

/-! ## Sync-loop lemmas shared by C1 and C9 -/

/-- An existing-row lookup that fails on an extended table also fails on the
original table. -/
theorem StravaService.findExisting_append_none (db more : List Activity)
    (u : String) (sa : StravaActivity)
    (h : StravaService.findExisting (db ++ more) u sa = none) :
    StravaService.findExisting db u sa = none := by
  unfold StravaService.findExisting at h ⊢
  rw [List.find?_eq_none] at h ⊢
  intro x hx
  exact h x (List.mem_append_left more hx)

/-- An existing-row lookup that succeeds still succeeds after rows are
appended. -/
theorem StravaService.findExisting_append_isSome (db more : List Activity)
    (u : String) (sa : StravaActivity)
    (h : (StravaService.findExisting db u sa).isSome) :
    (StravaService.findExisting (db ++ more) u sa).isSome := by
  unfold StravaService.findExisting at h ⊢
  rw [List.find?_isSome] at h ⊢
  obtain ⟨x, hx, hp⟩ := h
  exact ⟨x, List.mem_append_left more hx, hp⟩

/-- Shape of a sync pass: the table only grows by fresh rows, the counter
counts exactly the fresh rows, and every fresh row is the conversion of a
fetched Run-typed activity that matched no row of the starting table. -/
theorem StravaService.syncLoop_shape (u : String) :
    ∀ (rest : List StravaActivity) (db : List Activity) (n : Nat),
      ∃ newRows : List Activity,
        StravaService.syncLoop u rest db n = (db ++ newRows, n + newRows.length) ∧
        ∀ r ∈ newRows, ∃ sa, sa ∈ rest ∧ sa.type = "Run" ∧
          r = StravaService.createActivityFromStrava u sa ∧
          StravaService.findExisting db u sa = none := by
  intro rest
  induction rest with
  | nil =>
    intro db n
    exact ⟨[], by simp [StravaService.syncLoop], by simp⟩
  | cons sa rest ih =>
    intro db n
    cases hfind : StravaService.findExisting db u sa with
    | some a =>
      obtain ⟨newRows, h1, h2⟩ := ih db n
      refine ⟨newRows, ?_, ?_⟩
      · simp only [StravaService.syncLoop, hfind]
        exact h1
      · intro r hr
        obtain ⟨sa2, hm, ht, he, hn⟩ := h2 r hr
        exact ⟨sa2, List.mem_cons_of_mem _ hm, ht, he, hn⟩
    | none =>
      by_cases htype : sa.type = "Run"
      · obtain ⟨newRows, h1, h2⟩ :=
          ih (db ++ [StravaService.createActivityFromStrava u sa]) (n + 1)
        refine ⟨StravaService.createActivityFromStrava u sa :: newRows, ?_, ?_⟩
        · simp only [StravaService.syncLoop, hfind, if_pos htype]
          rw [h1]
          simp only [Prod.mk.injEq]
          constructor
          · simp [List.append_assoc]
          · simp only [List.length_cons]
            omega
        · intro r hr
          rcases List.mem_cons.mp hr with h | h
          · exact ⟨sa, List.mem_cons_self sa rest, htype, h, hfind⟩
          · obtain ⟨sa2, hm, ht, he, hn⟩ := h2 r h
            exact ⟨sa2, List.mem_cons_of_mem _ hm, ht, he,
              StravaService.findExisting_append_none db _ u sa2 hn⟩
      · obtain ⟨newRows, h1, h2⟩ := ih db n
        refine ⟨newRows, ?_, ?_⟩
        · simp only [StravaService.syncLoop, hfind, if_neg htype]
          exact h1
        · intro r hr
          obtain ⟨sa2, hm, ht, he, hn⟩ := h2 r hr
          exact ⟨sa2, List.mem_cons_of_mem _ hm, ht, he, hn⟩

/-- After a sync pass, every Run-typed fetched activity has a matching row in
the resulting table. -/
theorem StravaService.syncLoop_covers (u : String) :
    ∀ (rest : List StravaActivity) (db : List Activity) (n : Nat)
      (sa : StravaActivity), sa ∈ rest → sa.type = "Run" →
      (StravaService.findExisting
        (StravaService.syncLoop u rest db n).1 u sa).isSome := by
  intro rest
  induction rest with
  | nil =>
    intro db n sa h
    exact absurd h (List.not_mem_nil sa)
  | cons sa0 rest ih =>
    intro db n sa hmem htype
    cases hfind : StravaService.findExisting db u sa0 with
    | some a =>
      have hstep : StravaService.syncLoop u (sa0 :: rest) db n =
          StravaService.syncLoop u rest db n := by
        simp only [StravaService.syncLoop, hfind]
      rw [hstep]
      rcases List.mem_cons.mp hmem with h | h
      · subst h
        obtain ⟨newRows, hshape, _⟩ := StravaService.syncLoop_shape u rest db n
        rw [hshape]
        exact StravaService.findExisting_append_isSome db newRows u sa
          (by rw [hfind]; rfl)
      · exact ih db n sa h htype
    | none =>
      by_cases ht0 : sa0.type = "Run"
      · have hstep : StravaService.syncLoop u (sa0 :: rest) db n =
            StravaService.syncLoop u rest
              (db ++ [StravaService.createActivityFromStrava u sa0]) (n + 1) := by
          simp only [StravaService.syncLoop, hfind, if_pos ht0]
        rw [hstep]
        rcases List.mem_cons.mp hmem with h | h
        · subst h
          obtain ⟨newRows, hshape, _⟩ := StravaService.syncLoop_shape u rest
            (db ++ [StravaService.createActivityFromStrava u sa]) (n + 1)
          rw [hshape]
          apply StravaService.findExisting_append_isSome
          unfold StravaService.findExisting
          rw [List.find?_isSome]
          refine ⟨StravaService.createActivityFromStrava u sa, ?_, ?_⟩
          · exact List.mem_append_right db (List.mem_singleton_self _)
          · simp [StravaService.createActivityFromStrava]
        · exact ih (db ++ [StravaService.createActivityFromStrava u sa0])
            (n + 1) sa h htype
      · have hstep : StravaService.syncLoop u (sa0 :: rest) db n =
            StravaService.syncLoop u rest db n := by
          simp only [StravaService.syncLoop, hfind, if_neg ht0]
        rw [hstep]
        rcases List.mem_cons.mp hmem with h | h
        · subst h
          exact absurd htype ht0
        · exact ih db n sa h htype

/-- A sync pass over a table that already matches every Run-typed fetched
activity changes nothing and counts nothing. -/
theorem StravaService.syncLoop_noop (u : String) :
    ∀ (rest : List StravaActivity) (db : List Activity) (n : Nat),
      (∀ sa ∈ rest, sa.type = "Run" →
        (StravaService.findExisting db u sa).isSome) →
      StravaService.syncLoop u rest db n = (db, n) := by
  intro rest
  induction rest with
  | nil =>
    intro db n _
    simp [StravaService.syncLoop]
  | cons sa rest ih =>
    intro db n hcov
    cases hfind : StravaService.findExisting db u sa with
    | some a =>
      have hstep : StravaService.syncLoop u (sa :: rest) db n =
          StravaService.syncLoop u rest db n := by
        simp only [StravaService.syncLoop, hfind]
      rw [hstep]
      exact ih db n (fun s hs => hcov s (List.mem_cons_of_mem _ hs))
    | none =>
      by_cases ht : sa.type = "Run"
      · have := hcov sa (List.mem_cons_self sa rest) ht
        rw [hfind] at this
        exact absurd this (by simp)
      · have hstep : StravaService.syncLoop u (sa :: rest) db n =
            StravaService.syncLoop u rest db n := by
          simp only [StravaService.syncLoop, hfind, if_neg ht]
        rw [hstep]
        exact ih db n (fun s hs => hcov s (List.mem_cons_of_mem _ hs))

/-! ## C1: de-duplication of the Strava sync -/

/-- C1: a sync pass creates a new row only for a fetched activity whose
(userId, stravaId) pair matches no stored row; the returned `synced` count is
exactly the number of rows created; and a second pass over the same fetched
activities creates no rows and counts 0. -/
theorem strava_sync_dedup_correct (u : String) (fetched : List StravaActivity)
    (db : List Activity) :
    (∀ a ∈ (StravaService.syncUserActivitiesProcess u fetched db).1,
      a ∈ db ∨ ∃ sa, sa ∈ fetched ∧
        a = StravaService.createActivityFromStrava u sa ∧
        StravaService.findExisting db u sa = none) ∧
    ((StravaService.syncUserActivitiesProcess u fetched db).1.length =
      db.length + (StravaService.syncUserActivitiesProcess u fetched db).2) ∧
    (StravaService.syncUserActivitiesProcess u fetched
        (StravaService.syncUserActivitiesProcess u fetched db).1 =
      ((StravaService.syncUserActivitiesProcess u fetched db).1, 0)) := by
  obtain ⟨newRows, hshape, hprov⟩ := StravaService.syncLoop_shape u fetched db 0
  refine ⟨?_, ?_, ?_⟩
  · intro a ha
    unfold StravaService.syncUserActivitiesProcess at ha
    rw [hshape] at ha
    rcases List.mem_append.mp ha with h | h
    · exact Or.inl h
    · obtain ⟨sa, hm, _, he, hn⟩ := hprov a h
      exact Or.inr ⟨sa, hm, he, hn⟩
  · unfold StravaService.syncUserActivitiesProcess
    rw [hshape]
    simp
  · unfold StravaService.syncUserActivitiesProcess
    exact StravaService.syncLoop_noop u fetched _ 0
      (fun sa hs ht => StravaService.syncLoop_covers u fetched db 0 sa hs ht)

/-- Witness for C1: running the sync twice over one concrete fetched Run at an
empty table leaves the table of the first pass unchanged with count 0. -/
theorem strava_sync_dedup_correct_witness :
    StravaService.syncUserActivitiesProcess "user-1" [zeroSpeedStravaActivity]
        (StravaService.syncUserActivitiesProcess "user-1"
          [zeroSpeedStravaActivity] []).1 =
      ((StravaService.syncUserActivitiesProcess "user-1"
        [zeroSpeedStravaActivity] []).1, 0) :=
  (strava_sync_dedup_correct "user-1" [zeroSpeedStravaActivity] []).2.2

/-! ## C9: only Run-typed fetched activities are stored or counted -/

/-- C9: in both `syncUserActivities` and `syncUserActivitiesExtended`, the
rows added by a sync pass all come from fetched activities whose type is
exactly the string Run, and the returned `synced` count equals the number of
those added rows — activities of any other type are never stored and never
counted. -/
theorem strava_sync_only_runs (u : String) (fetched : List StravaActivity)
    (db : List Activity) :
    (∃ newRows : List Activity,
      StravaService.syncUserActivitiesProcess u fetched db =
        (db ++ newRows, newRows.length) ∧
      ∀ r ∈ newRows, ∃ sa, sa ∈ fetched ∧ sa.type = "Run" ∧
        r = StravaService.createActivityFromStrava u sa) ∧
    (∃ newRows : List Activity,
      StravaService.syncUserActivitiesExtendedProcess u fetched db =
        (db ++ newRows, newRows.length) ∧
      ∀ r ∈ newRows, ∃ sa, sa ∈ fetched ∧ sa.type = "Run" ∧
        r = StravaService.createActivityFromStrava u sa) := by
  obtain ⟨newRows, hshape, hprov⟩ := StravaService.syncLoop_shape u fetched db 0
  constructor
  · refine ⟨newRows, ?_, ?_⟩
    · unfold StravaService.syncUserActivitiesProcess
      rw [hshape]
      simp
    · intro r hr
      obtain ⟨sa, hm, ht, he, _⟩ := hprov r hr
      exact ⟨sa, hm, ht, he⟩
  · refine ⟨newRows, ?_, ?_⟩
    · unfold StravaService.syncUserActivitiesExtendedProcess
      rw [hshape]
      simp
    · intro r hr
      obtain ⟨sa, hm, ht, he, _⟩ := hprov r hr
      exact ⟨sa, hm, ht, he⟩

/-- Witness for C9: a fetched Ride is not stored and not counted. -/
theorem strava_sync_only_runs_witness :
    (StravaService.syncUserActivitiesProcess "user-1"
      [{ zeroSpeedStravaActivity with type := "Ride" }] []).2 = 0 := by
  obtain ⟨newRows, heq, hall⟩ := (strava_sync_only_runs "user-1"
    [{ zeroSpeedStravaActivity with type := "Ride" }] []).1
  cases newRows with
  | nil =>
    rw [heq]
    rfl
  | cons r rs =>
    obtain ⟨sa, hm, ht, _⟩ := hall r (List.mem_cons_self r rs)
    rw [List.mem_singleton] at hm
    rw [hm] at ht
    exact absurd ht (by decide)

/-! ## C7: pagination bounds of the fetch loops -/

/-- The fetch loop entered at page `page ≤ maxPage` performs at most
`maxPage + 1 - page` page requests. -/
theorem StravaService.fetchAllPages_requests_le
    (pages : Nat → List StravaActivity) (maxPage : Nat) :
    ∀ (page : Nat) (acc : List StravaActivity), page ≤ maxPage →
      (StravaService.fetchAllPages pages maxPage page acc).2 ≤
        maxPage + 1 - page := by
  intro page acc
  induction page, acc using StravaService.fetchAllPages.induct pages maxPage with
  | case1 page acc ha =>
    intro hle
    rw [StravaService.fetchAllPages, if_pos ha]
    omega
  | case2 page acc ha hgt =>
    intro hle
    rw [StravaService.fetchAllPages, if_neg ha, dif_pos hgt]
    omega
  | case3 page acc ha hgt ih =>
    intro hle
    rw [StravaService.fetchAllPages, if_neg ha, dif_neg hgt]
    have h2 := ih (by omega)
    dsimp only
    omega

/-- When every page response holds at most `perPage` activities, the fetch
loop entered at page `page ≤ maxPage` accumulates at most
`(maxPage + 1 - page) * perPage` further activities. -/
theorem StravaService.fetchAllPages_length_le
    (pages : Nat → List StravaActivity) (maxPage perPage : Nat)
    (hb : ∀ p, (pages p).length ≤ perPage) :
    ∀ (page : Nat) (acc : List StravaActivity), page ≤ maxPage →
      (StravaService.fetchAllPages pages maxPage page acc).1.length ≤
        acc.length + (maxPage + 1 - page) * perPage := by
  intro page acc
  induction page, acc using StravaService.fetchAllPages.induct pages maxPage with
  | case1 page acc ha =>
    intro hle
    rw [StravaService.fetchAllPages, if_pos ha]
    dsimp only
    omega
  | case2 page acc ha hgt =>
    intro hle
    rw [StravaService.fetchAllPages, if_neg ha, dif_pos hgt]
    have h1 := hb page
    have h2 : maxPage + 1 - page ≥ 1 := by omega
    dsimp only
    simp only [List.length_append]
    nlinarith
  | case3 page acc ha hgt ih =>
    intro hle
    rw [StravaService.fetchAllPages, if_neg ha, dif_neg hgt]
    have h1 := hb page
    have h2 := ih (by omega)
    dsimp only
    simp only [List.length_append] at h2 ⊢
    have h3 : (maxPage + 1 - (page + 1)) * perPage + perPage ≤
        (maxPage + 1 - page) * perPage := by
      have h4 : maxPage + 1 - page = (maxPage + 1 - (page + 1)) + 1 := by omega
      rw [h4]
      ring_nf
      omega
    omega

/-- C7: `syncUserActivities` requests at most 5 pages and (at 200 activities
per page) fetches at most 1000 activities; `syncUserActivitiesExtended`
requests at most 10 pages and fetches at most 2000; both stop at once on an
empty first page, and both loops are total functions (they terminate by the
decreasing measure `maxPage + 1 - page`). -/
theorem strava_pagination_bounded (pages : Nat → List StravaActivity) :
    (StravaService.syncFetch pages).2 ≤ 5 ∧
    ((∀ p, (pages p).length ≤ 200) →
      (StravaService.syncFetch pages).1.length ≤ 1000) ∧
    (pages 1 = [] → StravaService.syncFetch pages = ([], 1)) ∧
    (StravaService.syncFetchExtended pages).2 ≤ 10 ∧
    ((∀ p, (pages p).length ≤ 200) →
      (StravaService.syncFetchExtended pages).1.length ≤ 2000) ∧
    (pages 1 = [] → StravaService.syncFetchExtended pages = ([], 1)) := by
  refine ⟨?_, ?_, ?_, ?_, ?_, ?_⟩
  · have h := StravaService.fetchAllPages_requests_le pages 5 1 [] (by omega)
    simpa [StravaService.syncFetch] using h
  · intro hb
    have h := StravaService.fetchAllPages_length_le pages 5 200 hb 1 [] (by omega)
    simpa [StravaService.syncFetch] using h
  · intro h1
    unfold StravaService.syncFetch
    rw [StravaService.fetchAllPages, if_pos (by simp [h1])]
  · have h := StravaService.fetchAllPages_requests_le pages 10 1 [] (by omega)
    simpa [StravaService.syncFetchExtended] using h
  · intro hb
    have h := StravaService.fetchAllPages_length_le pages 10 200 hb 1 [] (by omega)
    simpa [StravaService.syncFetchExtended] using h
  · intro h1
    unfold StravaService.syncFetchExtended
    rw [StravaService.fetchAllPages, if_pos (by simp [h1])]

/-- Witness for C7 at a concrete page function: one full page then empty. -/
theorem strava_pagination_bounded_witness :
    (StravaService.syncFetch
      (fun p => if p = 1 then [zeroSpeedStravaActivity] else [])).1.length ≤
      1000 :=
  (strava_pagination_bounded
    (fun p => if p = 1 then [zeroSpeedStravaActivity] else [])).2.1
    (fun p => by by_cases h : p = 1 <;> simp [h])

/-! ## C5: registration and login -/

/-- C5: `register` throws `ConflictException` exactly when some user with the
given email already exists (active or not), and on success stores the bcrypt
hash of the password — every stored password is the new hash or one that was
already stored; `login` returns tokens exactly when an active user with the
given email exists and bcrypt comparison succeeds (emails being unique as the
schema enforces), and throws `UnauthorizedException` in every other case; the
issued access token is signed to expire in 15 minutes. -/
theorem auth_register_login_correct (bcryptHash : String → Nat → String)
    (bcryptCompare : String → String → Bool) (newId : String) (now : Int)
    (db : List User) (registerDto : RegisterDto) (loginDto : LoginDto) :
    ((AuthService.register bcryptHash newId now db registerDto =
        .error .conflictException) ↔ ∃ u ∈ db, u.email = registerDto.email) ∧
    (∀ resp db2,
      AuthService.register bcryptHash newId now db registerDto =
        .ok (resp, db2) →
      (∃ u ∈ db2, u.password = bcryptHash registerDto.password 12) ∧
      ∀ u ∈ db2, u.password = bcryptHash registerDto.password 12 ∨
        u.password ∈ db.map (fun v => v.password)) ∧
    (emailsUnique db →
      ((∃ r, AuthService.login bcryptCompare now db loginDto = .ok r) ↔
        ∃ u ∈ db, u.email = loginDto.email ∧ u.isActive = true ∧
          bcryptCompare loginDto.password u.password = true)) ∧
    ((∃ r, AuthService.login bcryptCompare now db loginDto = .ok r) ∨
      AuthService.login bcryptCompare now db loginDto =
        .error .unauthorizedException) ∧
    (∀ u : User, (AuthService.generateTokens u).accessToken.expiresIn = "15m" ∧
      (AuthService.generateTokens u).expiresIn = 15 * 60 * 1000) := by
  refine ⟨?_, ?_, ?_, ?_, fun u => ⟨rfl, rfl⟩⟩
  · cases hfind : db.find? (fun u => decide (u.email = registerDto.email)) with
    | some u =>
      constructor
      · intro _
        refine ⟨u, List.mem_of_find?_eq_some hfind, ?_⟩
        have := List.find?_some hfind
        exact of_decide_eq_true this
      · intro _
        simp [AuthService.register, hfind]
    | none =>
      constructor
      · intro h
        rw [AuthService.register, hfind] at h
        exact absurd h (by simp)
      · intro ⟨u, hu, he⟩
        rw [List.find?_eq_none] at hfind
        exact absurd (decide_eq_true he) (hfind u hu)
  · intro resp db2 hok
    cases hfind : db.find? (fun u => decide (u.email = registerDto.email)) with
    | some u =>
      rw [AuthService.register, hfind] at hok
      exact absurd hok (by simp)
    | none =>
      rw [AuthService.register, hfind] at hok
      simp only [Except.ok.injEq, Prod.mk.injEq] at hok
      obtain ⟨-, hdb2⟩ := hok
      rw [← hdb2]
      constructor
      · refine ⟨_, List.mem_map_of_mem _
          (List.mem_append_right db (List.mem_singleton_self _)), ?_⟩
        simp
      · intro u hu
        rw [List.mem_map] at hu
        obtain ⟨v, hv, hvu⟩ := hu
        rcases List.mem_append.mp hv with h | h
        · right
          rw [← hvu]
          by_cases hid : v.id = newId <;>
            simp [hid] <;> exact ⟨v, h, rfl⟩
        · left
          rw [List.mem_singleton] at h
          rw [← hvu, h]
          by_cases hid :
              ({ id := newId, email := registerDto.email,
                 password := bcryptHash registerDto.password 12,
                 firstName := registerDto.firstName,
                 lastName := registerDto.lastName, stravaId := none,
                 preferences := some
                   { units := some (jsOrDefault registerDto.units "metric")
                     timezone := some (jsOrDefault registerDto.timezone "UTC")
                     goals := none }
                 profile := none, isActive := true,
                 lastLoginAt := none } : User).id = newId <;>
            simp [hid]
  · intro huniq
    constructor
    · intro ⟨r, hr⟩
      cases hfind : db.find?
          (fun u => decide (u.email = loginDto.email ∧ u.isActive = true)) with
      | none =>
        unfold AuthService.login at hr
        rw [hfind] at hr
        exact absurd hr (by simp)
      | some w =>
        have hw0 := List.find?_some hfind
        simp only [decide_eq_true_eq] at hw0
        cases hcmp : bcryptCompare loginDto.password w.password with
        | false =>
          unfold AuthService.login at hr
          rw [hfind] at hr
          dsimp only at hr
          rw [hcmp] at hr
          simp at hr
        | true =>
          exact ⟨w, List.mem_of_find?_eq_some hfind, hw0.1, hw0.2, hcmp⟩
    · intro ⟨u, hu, he, ha, hc⟩
      have hsome : (db.find?
          (fun v => decide (v.email = loginDto.email ∧ v.isActive = true))).isSome := by
        rw [List.find?_isSome]
        exact ⟨u, hu, decide_eq_true ⟨he, ha⟩⟩
      obtain ⟨w, hw⟩ := Option.isSome_iff_exists.mp hsome
      have hwp := List.find?_some hw
      simp only [decide_eq_true_eq] at hwp
      have hwu : w = u := by
        apply List.inj_on_of_nodup_map huniq
          (List.mem_of_find?_eq_some hw) hu
        rw [hwp.1, he]
      have hcw : bcryptCompare loginDto.password w.password = true := by
        rw [hwu]
        exact hc
      refine ⟨({ accessToken := (AuthService.generateTokens w).accessToken
                 refreshToken := (AuthService.generateTokens w).refreshToken
                 expiresIn := (AuthService.generateTokens w).expiresIn
                 user := AuthService.sanitizeUser w },
               db.map (fun v => if v.id = w.id then
                 { v with lastLoginAt := some now } else v)), ?_⟩
      unfold AuthService.login
      rw [hw]
      dsimp only
      rw [if_pos hcw]
  · cases hfind : db.find?
        (fun u => decide (u.email = loginDto.email ∧ u.isActive = true)) with
    | none =>
      right
      unfold AuthService.login
      rw [hfind]
    | some w =>
      cases hcmp : bcryptCompare loginDto.password w.password with
      | false =>
        right
        unfold AuthService.login
        rw [hfind]
        dsimp only
        rw [if_neg (by simp [hcmp])]
      | true =>
        left
        refine ⟨({ accessToken := (AuthService.generateTokens w).accessToken
                   refreshToken := (AuthService.generateTokens w).refreshToken
                   expiresIn := (AuthService.generateTokens w).expiresIn
                   user := AuthService.sanitizeUser w },
                 db.map (fun v => if v.id = w.id then
                   { v with lastLoginAt := some now } else v)), ?_⟩
        unfold AuthService.login
        rw [hfind]
        dsimp only
        rw [if_pos hcmp]

/-- Witness for C5: at a concrete single-user table, registering the same
email again yields the conflict, and login with the matching password
succeeds (with a concrete bcrypt model). -/
theorem auth_register_login_correct_witness :
    AuthService.register (fun p _ => String.append "H" p) "2" 0 [sampleUser]
        { email := "runner@example.com", password := "x", firstName := "F"
          lastName := "L", units := none, timezone := none } =
      .error .conflictException ∧
    (∃ r, AuthService.login (fun p h => h == String.append "H" p) 0
        [{ sampleUser with password := "Hpw" }]
        { email := "runner@example.com", password := "pw" } = .ok r) := by
  constructor
  · exact (auth_register_login_correct (fun p _ => String.append "H" p)
      (fun p h => h == String.append "H" p) "2" 0 [sampleUser]
      { email := "runner@example.com", password := "x", firstName := "F"
        lastName := "L", units := none, timezone := none }
      { email := "runner@example.com", password := "pw" }).1.mpr
      ⟨sampleUser, List.mem_singleton_self _, rfl⟩
  · exact ((auth_register_login_correct (fun p _ => String.append "H" p)
      (fun p h => h == String.append "H" p) "2" 0
      [{ sampleUser with password := "Hpw" }]
      { email := "runner@example.com", password := "x", firstName := "F"
        lastName := "L", units := none, timezone := none }
      { email := "runner@example.com", password := "pw" }).2.2.1
      (by unfold emailsUnique; decide)).mpr
      ⟨{ sampleUser with password := "Hpw" }, List.mem_singleton_self _,
        rfl, rfl, by decide⟩

/-! ## C10: the password hash is never exposed at the auth interface -/

/-- C10: `sanitizeUser` keeps every field of the user except `password` (its
result type has no password field at all), and the user object embedded in
the `AuthResponseDto` returned by `register`, `login`, and `refreshToken` is
`sanitizeUser` of the stored/validated user row. -/
theorem auth_sanitize_user_correct :
    (∀ u : User,
      (AuthService.sanitizeUser u).id = u.id ∧
      (AuthService.sanitizeUser u).email = u.email ∧
      (AuthService.sanitizeUser u).firstName = u.firstName ∧
      (AuthService.sanitizeUser u).lastName = u.lastName ∧
      (AuthService.sanitizeUser u).stravaId = u.stravaId ∧
      (AuthService.sanitizeUser u).preferences = u.preferences ∧
      (AuthService.sanitizeUser u).profile = u.profile ∧
      (AuthService.sanitizeUser u).isActive = u.isActive ∧
      (AuthService.sanitizeUser u).lastLoginAt = u.lastLoginAt) ∧
    (∀ (bcryptHash : String → Nat → String) (newId : String) (now : Int)
      (db : List User) (registerDto : RegisterDto) resp db2,
      AuthService.register bcryptHash newId now db registerDto =
        .ok (resp, db2) →
      resp.user = AuthService.sanitizeUser
        { id := newId, email := registerDto.email
          password := bcryptHash registerDto.password 12
          firstName := registerDto.firstName
          lastName := registerDto.lastName, stravaId := none
          preferences := some
            { units := some (jsOrDefault registerDto.units "metric")
              timezone := some (jsOrDefault registerDto.timezone "UTC")
              goals := none }
          profile := none, isActive := true, lastLoginAt := none }) ∧
    (∀ (bcryptCompare : String → String → Bool) (now : Int) (db : List User)
      (loginDto : LoginDto) resp db2,
      AuthService.login bcryptCompare now db loginDto = .ok (resp, db2) →
      ∃ u, db.find?
          (fun v => decide (v.email = loginDto.email ∧ v.isActive = true)) =
            some u ∧
        resp.user = AuthService.sanitizeUser u) ∧
    (∀ (verify : String → Option SignedJwt) (db : List User) (token : String)
      resp,
      AuthService.refreshToken verify db token = .ok resp →
      ∃ payload u, verify token = some payload ∧
        AuthService.validateUser db payload.sub = .ok u ∧
        resp.user = AuthService.sanitizeUser u) := by
  refine ⟨fun u => ⟨rfl, rfl, rfl, rfl, rfl, rfl, rfl, rfl, rfl⟩, ?_, ?_, ?_⟩
  · intro bcryptHash newId now db registerDto resp db2 hok
    cases hfind : db.find? (fun u => decide (u.email = registerDto.email)) with
    | some u =>
      rw [AuthService.register, hfind] at hok
      exact absurd hok (by simp)
    | none =>
      rw [AuthService.register, hfind] at hok
      simp only [Except.ok.injEq, Prod.mk.injEq] at hok
      rw [← hok.1]
  · intro bcryptCompare now db loginDto resp db2 hok
    cases hfind : db.find?
        (fun v => decide (v.email = loginDto.email ∧ v.isActive = true)) with
    | none =>
      unfold AuthService.login at hok
      rw [hfind] at hok
      exact absurd hok (by simp)
    | some w =>
      cases hcmp : bcryptCompare loginDto.password w.password with
      | false =>
        unfold AuthService.login at hok
        rw [hfind] at hok
        dsimp only at hok
        rw [if_neg (by simp [hcmp])] at hok
        exact absurd hok (by simp)
      | true =>
        unfold AuthService.login at hok
        rw [hfind] at hok
        dsimp only at hok
        rw [if_pos hcmp] at hok
        simp only [Except.ok.injEq, Prod.mk.injEq] at hok
        exact ⟨w, rfl, by rw [← hok.1]⟩
  · intro verify db token resp hok
    cases hver : verify token with
    | none =>
      unfold AuthService.refreshToken at hok
      rw [hver] at hok
      exact absurd hok (by simp)
    | some payload =>
      unfold AuthService.refreshToken at hok
      rw [hver] at hok
      dsimp only at hok
      cases hval : AuthService.validateUser db payload.sub with
      | error e =>
        rw [hval] at hok
        exact absurd hok (by simp)
      | ok u =>
        rw [hval] at hok
        dsimp only at hok
        simp only [Except.ok.injEq] at hok
        exact ⟨payload, u, rfl, hval, by rw [← hok]⟩

/-- Witness for C10: registering at an empty table yields a response whose
embedded user is the sanitized created row. -/
theorem auth_sanitize_user_correct_witness :
    ∃ resp db2,
      AuthService.register (fun p _ => String.append "H" p) "1" 5 []
          { email := "a@b.c", password := "pw", firstName := "F"
            lastName := "L", units := none, timezone := none } =
        .ok (resp, db2) ∧
      resp.user = AuthService.sanitizeUser
        { id := "1", email := "a@b.c", password := "Hpw", firstName := "F"
          lastName := "L", stravaId := none
          preferences := some
            { units := some "metric", timezone := some "UTC", goals := none }
          profile := none, isActive := true, lastLoginAt := none } := by
  refine ⟨_, _, rfl, ?_⟩
  have h := auth_sanitize_user_correct.2.1 (fun p _ => String.append "H" p)
    "1" 5 []
    { email := "a@b.c", password := "pw", firstName := "F"
      lastName := "L", units := none, timezone := none } _ _ rfl
  rw [h]
  rfl
